import Mathlib

/-!
Verification of the peer-to-peer connection subsystem of an online-meeting
application: a shallow embedding of the WebRTC connection manager
(WebRTCManager), of the signaling deduplication loop and of the screen-share
lifecycle controller (ClassRoom.tsx), with theorems about their behaviour.

JavaScript `Map`s are embedded as association lists with in-place update
semantics; JavaScript object references (RTCPeerConnection and
MediaStreamTrack objects, which outlive their removal from a `Map`) are
embedded as handles (`Nat`) into explicit stores carried by the manager state.
-/

namespace OnlineMeeting

/-- Lookup in an association list: the value of the first entry whose key
matches (JavaScript `Map.get`). -/
def mget {κ α : Type} [DecidableEq κ] : List (κ × α) → κ → Option α
  | [], _ => none
  | p :: rest, k => if p.1 = k then some p.2 else mget rest k

/-- JavaScript `Map.set`: update the entry in place when the key is present
(preserving insertion order), append otherwise. -/
def mset {κ α : Type} [DecidableEq κ] : List (κ × α) → κ → α → List (κ × α)
  | [], k, v => [(k, v)]
  | (k', v') :: rest, k, v =>
    if k' = k then (k, v) :: rest else (k', v') :: mset rest k v

/-- JavaScript `Map.delete`: remove the entry with the given key. -/
def merase {κ α : Type} [DecidableEq κ] : List (κ × α) → κ → List (κ × α)
  | [], _ => []
  | (k', v') :: rest, k =>
    if k' = k then merase rest k else (k', v') :: merase rest k

/-- Number of entries stored under a key. -/
def countKey {κ α : Type} [DecidableEq κ] : List (κ × α) → κ → Nat
  | [], _ => 0
  | (k', _) :: rest, k =>
    if k' = k then countKey rest k + 1 else countKey rest k

theorem mget_mset_self {κ α : Type} [DecidableEq κ] (l : List (κ × α)) (k : κ) (v : α) :
    mget (mset l k v) k = some v := by
  induction l with
  | nil => simp [mset, mget]
  | cons p rest ih =>
    obtain ⟨k1, v1⟩ := p
    by_cases hk : k1 = k
    · simp [mset, mget, hk]
    · simp [mset, mget, hk, ih]

theorem mget_mset_ne {κ α : Type} [DecidableEq κ] (l : List (κ × α)) (k k' : κ) (v : α)
    (hne : k' ≠ k) :
    mget (mset l k v) k' = mget l k' := by
  have hkk : ¬ k = k' := fun h => hne h.symm
  induction l with
  | nil => simp [mset, mget, hkk]
  | cons p rest ih =>
    obtain ⟨k1, v1⟩ := p
    by_cases hk : k1 = k
    · have hne1 : ¬ k1 = k' := by rw [hk]; exact hkk
      simp [mset, mget, hk, hne1, hkk]
    · by_cases hk' : k1 = k'
      · simp only [mset, if_neg hk]
        simp [mget, hk']
      · simp only [mset, if_neg hk]
        simp [mget, hk', ih]

theorem mget_merase_self {κ α : Type} [DecidableEq κ] (l : List (κ × α)) (k : κ) :
    mget (merase l k) k = none := by
  induction l with
  | nil => simp [merase, mget]
  | cons p rest ih =>
    obtain ⟨k1, v1⟩ := p
    by_cases hk : k1 = k
    · simp [merase, hk, ih]
    · simp [merase, mget, hk, ih]

theorem mget_merase_ne {κ α : Type} [DecidableEq κ] (l : List (κ × α)) (k k' : κ)
    (hne : k' ≠ k) :
    mget (merase l k) k' = mget l k' := by
  induction l with
  | nil => simp [merase]
  | cons p rest ih =>
    obtain ⟨k1, v1⟩ := p
    by_cases hk : k1 = k
    · have hne1 : ¬ k1 = k' := by rw [hk]; exact fun h => hne h.symm
      have hkk : ¬ k = k' := fun h => hne h.symm
      simp [merase, mget, hk, hne1, hkk, ih]
    · by_cases hk' : k1 = k'
      · simp only [merase, if_neg hk]
        simp [mget, hk']
      · simp only [merase, if_neg hk]
        simp [mget, hk', ih]

theorem merase_eq_self_of_mget_none {κ α : Type} [DecidableEq κ] (l : List (κ × α)) (k : κ)
    (h : mget l k = none) :
    merase l k = l := by
  induction l with
  | nil => simp [merase]
  | cons p rest ih =>
    obtain ⟨k1, v1⟩ := p
    by_cases hk : k1 = k
    · simp [mget, hk] at h
    · simp only [mget, hk, if_neg, if_false] at h
      simp [merase, hk, ih (by simpa [hk] using h)]

theorem merase_idem {κ α : Type} [DecidableEq κ] (l : List (κ × α)) (k : κ) :
    merase (merase l k) k = merase l k :=
  merase_eq_self_of_mget_none _ _ (mget_merase_self l k)

theorem countKey_merase_self {κ α : Type} [DecidableEq κ] (l : List (κ × α)) (k : κ) :
    countKey (merase l k) k = 0 := by
  induction l with
  | nil => simp [merase, countKey]
  | cons p rest ih =>
    obtain ⟨k1, v1⟩ := p
    by_cases hk : k1 = k
    · simp [merase, hk, ih]
    · simp [merase, countKey, hk, ih]

theorem countKey_mset_of_none {κ α : Type} [DecidableEq κ] (l : List (κ × α)) (k : κ) (v : α)
    (h : mget l k = none) :
    countKey (mset l k v) k = 1 := by
  induction l with
  | nil => simp [mset, countKey]
  | cons p rest ih =>
    obtain ⟨k1, v1⟩ := p
    by_cases hk : k1 = k
    · simp [mget, hk] at h
    · simp only [mget, hk, if_neg, if_false] at h
      simp [mset, countKey, hk, ih (by simpa [hk] using h)]

/-! ## Data model of the WebRTC connection manager (src/unnamed/part_001) -/

/-- `RTCPeerConnection.signalingState` values used by the manager. -/
inductive SignalingState
  | stable
  | haveLocalOffer
  | haveRemoteOffer
  | closed
deriving DecidableEq

/-- `RTCPeerConnection.connectionState` values used by the manager. -/
inductive ConnState
  | new
  | connecting
  | connected
  | disconnected
  | failed
  | closed
deriving DecidableEq

/-- An `RTCSessionDescriptionInit` (offer or answer): plain `{type, sdp}`. -/
structure RTCSessionDescriptionInit where
  type : String
  sdp : String
deriving DecidableEq

/-- An `RTCIceCandidateInit` as built by the manager's `onicecandidate`
handler: plain candidate data. -/
structure RTCIceCandidateInit where
  candidate : String
  sdpMid : Option String
  sdpMLineIndex : Option Nat
  usernameFragment : Option String
deriving DecidableEq

/-- A `MediaStreamTrack` object: its kind ("audio"/"video"), its `enabled`
flag and whether `stop()` has been called on it. -/
structure MediaStreamTrack where
  kind : String
  enabled : Bool
  stopped : Bool
deriving DecidableEq

/-- An `RTCPeerConnection` object. `addedTracks` records the track handles
attached via `addTrack`; `appliedCandidates` records, in order, the
candidates successfully applied via `addIceCandidate` on the connection. -/
structure RTCPeerConnection where
  signalingState : SignalingState
  connectionState : ConnState
  localDescription : Option RTCSessionDescriptionInit
  remoteDescription : Option RTCSessionDescriptionInit
  addedTracks : List Nat
  appliedCandidates : List RTCIceCandidateInit
deriving DecidableEq

/-- `RTCPeerConnection.close()`: the object transitions to the closed
signaling and connection states (it continues to exist on the heap even
after the manager drops its `Map` entry). -/
def pcClose (pc : RTCPeerConnection) : RTCPeerConnection :=
  { pc with signalingState := .closed, connectionState := .closed }

/-- State of the `WebRTCManager` class (src/unnamed/part_001).

The fields `localStream`, `peerConnections`, `remoteStreams`,
`isInitialized`, `connectionStates` and `pendingCandidates` are the
class's own fields; `trackStore`/`pcStore` model the JavaScript heap of
`MediaStreamTrack`/`RTCPeerConnection` objects (maps are stored by
reference, so a `MediaStream` is a list of track handles and
`peerConnections` maps a student id to a connection handle), and `nextPC`
is the allocator for fresh connection handles. -/
structure WebRTCManager where
  trackStore : List (Nat × MediaStreamTrack)
  pcStore : List (Nat × RTCPeerConnection)
  nextPC : Nat
  localStream : Option (List Nat)
  peerConnections : List (String × Nat)
  remoteStreams : List (String × Nat)
  isInitialized : Bool
  connectionStates : List (String × String)
  pendingCandidates : List (String × List RTCIceCandidateInit)
deriving DecidableEq

namespace WebRTCManager

/-- `closeConnection(studentId)` (src/unnamed/part_001 lines 265-279): close
the peer connection object if one is registered and delete it from the map,
then unconditionally delete the remote stream, connection state and pending
candidates entries for the id. -/
def closeConnection (m : WebRTCManager) (studentId : String) : WebRTCManager :=
  let m1 :=
    match mget m.peerConnections studentId with
    | some h =>
      let m' :=
        match mget m.pcStore h with
        | some pc => { m with pcStore := mset m.pcStore h (pcClose pc) }
        | none => m
      { m' with peerConnections := merase m'.peerConnections studentId }
    | none => m
  { m1 with
    remoteStreams := merase m1.remoteStreams studentId,
    connectionStates := merase m1.connectionStates studentId,
    pendingCandidates := merase m1.pendingCandidates studentId }

/-- `createPeerConnection(studentId)` (src/unnamed/part_001 lines 49-139):
close any existing connection for the id, allocate a fresh
`RTCPeerConnection`, reset the connection state to "new" and the pending
candidate buffer to `[]`, attach every current local track, and register the
new connection in the map. Returns the new state together with the handle
and value of the freshly created connection object. -/
def createPeerConnection (m : WebRTCManager) (studentId : String) :
    WebRTCManager × Nat × RTCPeerConnection :=
  let m := if (mget m.peerConnections studentId).isSome then m.closeConnection studentId else m
  let h := m.nextPC
  let pc : RTCPeerConnection :=
    { signalingState := .stable,
      connectionState := .new,
      localDescription := none,
      remoteDescription := none,
      addedTracks := m.localStream.getD [],
      appliedCandidates := [] }
  ({ m with
      nextPC := h + 1,
      connectionStates := mset m.connectionStates studentId "new",
      pendingCandidates := mset m.pendingCandidates studentId [],
      pcStore := mset m.pcStore h pc,
      peerConnections := mset m.peerConnections studentId h }, h, pc)

/-- `createOffer(studentId)` (src/unnamed/part_001 lines 141-166): close any
existing connection (the source additionally awaits a 100 ms grace delay,
a no-op in this sequential model), create a fresh connection, generate an
offer (its SDP is produced by the browser and is a parameter here) and set
it as local description, moving the signaling state to have-local-offer. -/
def createOffer (m : WebRTCManager) (studentId : String) (offerSdp : String) :
    WebRTCManager × RTCSessionDescriptionInit :=
  let m := if (mget m.peerConnections studentId).isSome then m.closeConnection studentId else m
  let r := m.createPeerConnection studentId
  let offer : RTCSessionDescriptionInit := { type := "offer", sdp := offerSdp }
  let pc := { r.2.2 with localDescription := some offer, signalingState := .haveLocalOffer }
  ({ r.1 with pcStore := mset r.1.pcStore r.2.1 pc }, offer)

/-- `handleAnswer(studentId, answer)` (src/unnamed/part_001 lines 168-206):
throw "No peer connection found" when no connection is registered for the
id; silently return when the signaling state is not have-local-offer;
otherwise set the answer as remote description (moving to stable), apply
every pending candidate in order, and empty the pending buffer. A thrown
error is modelled as `Except.error` and leaves the caller's state as it
was. -/
def handleAnswer (m : WebRTCManager) (studentId : String)
    (answer : RTCSessionDescriptionInit) : Except String WebRTCManager :=
  match mget m.peerConnections studentId with
  | none => .error "No peer connection found"
  | some h =>
    match mget m.pcStore h with
    | none => .error "No peer connection found"
    | some pc =>
      if pc.signalingState ≠ SignalingState.haveLocalOffer then
        .ok m
      else
        let pc1 := { pc with remoteDescription := some answer,
                             signalingState := SignalingState.stable }
        let pending := (mget m.pendingCandidates studentId).getD []
        let pc2 := { pc1 with appliedCandidates := pc1.appliedCandidates ++ pending }
        .ok { m with
          pcStore := mset m.pcStore h pc2,
          pendingCandidates := mset m.pendingCandidates studentId [] }

/-- `handleOffer(studentId, offer)` (src/unnamed/part_001 lines 208-232):
close any existing connection (with the same modelled-away grace delay),
create a fresh connection, set the given offer as remote description
(moving to have-remote-offer), then create an answer (SDP a parameter) and
set it as local description (moving to stable). -/
def handleOffer (m : WebRTCManager) (studentId : String)
    (offer : RTCSessionDescriptionInit) (answerSdp : String) :
    WebRTCManager × RTCSessionDescriptionInit :=
  let m := if (mget m.peerConnections studentId).isSome then m.closeConnection studentId else m
  let r := m.createPeerConnection studentId
  let pcR := { r.2.2 with remoteDescription := some offer,
                          signalingState := SignalingState.haveRemoteOffer }
  let answer : RTCSessionDescriptionInit := { type := "answer", sdp := answerSdp }
  let pcA := { pcR with localDescription := some answer,
                        signalingState := SignalingState.stable }
  ({ r.1 with pcStore := mset r.1.pcStore r.2.1 pcA }, answer)

/-- `addIceCandidate(studentId, candidateData)` (src/unnamed/part_001 lines
602-629): return silently when no connection is registered for the id;
buffer the candidate in `pendingCandidates` when the connection has no
remote description yet; otherwise apply it to the connection immediately
(failures are caught in the source, so the method never throws). -/
def addIceCandidate (m : WebRTCManager) (studentId : String)
    (candidateData : RTCIceCandidateInit) : WebRTCManager :=
  match mget m.peerConnections studentId with
  | none => m
  | some h =>
    match mget m.pcStore h with
    | none => m
    | some pc =>
      match pc.remoteDescription with
      | none =>
        let pending := (mget m.pendingCandidates studentId).getD []
        { m with pendingCandidates := mset m.pendingCandidates studentId (pending ++ [candidateData]) }
      | some _ =>
        let pc1 := { pc with appliedCandidates := pc.appliedCandidates ++ [candidateData] }
        { m with pcStore := mset m.pcStore h pc1 }

/-- `updateLocalStreamTracks(audioEnabled, videoEnabled)` (src/unnamed/part_001
lines 319-328): when a local stream exists, set `enabled := audioEnabled` on
each of its audio tracks and then `enabled := videoEnabled` on each of its
video tracks; the underlying track objects are mutated in the heap. -/
def updateLocalStreamTracks (m : WebRTCManager) (audioEnabled videoEnabled : Bool) :
    WebRTCManager :=
  match m.localStream with
  | none => m
  | some hs =>
    let ts1 := m.trackStore.map fun p =>
      if p.1 ∈ hs ∧ p.2.kind = "audio" then (p.1, { p.2 with enabled := audioEnabled }) else p
    let ts2 := ts1.map fun p =>
      if p.1 ∈ hs ∧ p.2.kind = "video" then (p.1, { p.2 with enabled := videoEnabled }) else p
    { m with trackStore := ts2 }

end WebRTCManager

/-- Video constraints requested by `initializeLocalStream` (ideal values). -/
structure VideoConstraints where
  width : Nat
  height : Nat
  frameRate : Nat
deriving DecidableEq

/-- Audio constraints requested by `initializeLocalStream`. -/
structure AudioConstraints where
  echoCancellation : Bool
  noiseSuppression : Bool
  autoGainControl : Bool
  channelCount : Nat
deriving DecidableEq

/-- A `MediaStreamConstraints` record: `none` stands for `false`. -/
structure MediaStreamConstraints where
  video : Option VideoConstraints
  audio : Option AudioConstraints
deriving DecidableEq

/-- The constraints object built by `initializeLocalStream` (src/unnamed/
part_001 lines 25-37). -/
def buildConstraints (audio video : Bool) : MediaStreamConstraints :=
  { video := if video then
      some { width := 1280, height := 720, frameRate := 30 } else none,
    audio := if audio then
      some { echoCancellation := true, noiseSuppression := true,
             autoGainControl := true, channelCount := 2 } else none }

namespace WebRTCManager

/-- `initializeLocalStream(audio, video)` (src/unnamed/part_001 lines 17-47):
throw "At least one of audio or video must be requested" when neither kind
is requested, before calling `getUserMedia`; otherwise call `getUserMedia`
with the built constraints (the device layer is the `getUserMedia`
parameter, returning fresh track objects or an error), store the obtained
stream and set the initialized flag. Returns the resulting state paired
with the thrown error or the obtained stream's track handles. -/
def initLocalStream (m : WebRTCManager) (audio video : Bool)
    (getUserMedia : MediaStreamConstraints → Except String (List (Nat × MediaStreamTrack))) :
    WebRTCManager × Except String (List Nat) :=
  if !audio && !video then
    (m, .error "At least one of audio or video must be requested")
  else
    match getUserMedia (buildConstraints audio video) with
    | .error e => (m, .error e)
    | .ok entries =>
      ({ m with
          trackStore := m.trackStore ++ entries,
          localStream := some (entries.map Prod.fst),
          isInitialized := true }, .ok (entries.map Prod.fst))

end WebRTCManager

/-! ## Signaling deduplication (src/src/pages/ClassRoom.tsx lines 394-438) -/

/-- The fields of an inbound signaling document consulted by the dedup
logic: its message type and its sender. -/
structure SignalData where
  type : String
  fromUserId : String
deriving DecidableEq

/-- A Firestore snapshot document: a transport-assigned identifier plus the
signal payload. -/
structure SnapshotDoc where
  id : String
  data : SignalData
deriving DecidableEq

/-- The listener's dedup state: the permanent set of already-processed
document ids and the short-lived `(type-sender) -> lastSeenTimestamp` map. -/
structure DedupState where
  processedSignalIds : List String
  recentSignalKeys : List (String × Nat)
deriving DecidableEq

/-- Processing of one added snapshot document by the signaling listener
(ClassRoom.tsx lines 409-437): skip if the id was already processed; record
the id; drop the message when another message with the same
`type-fromUserId` key was seen less than 3000 ms ago; otherwise record the
timestamp and dispatch. Returns the new state and whether the message was
dispatched to `handleSignalingMessage`. -/
def processDoc (now : Nat) (st : DedupState) (d : SnapshotDoc) : DedupState × Bool :=
  if d.id ∈ st.processedSignalIds then (st, false)
  else
    let st1 : DedupState := { st with processedSignalIds := st.processedSignalIds ++ [d.id] }
    let signalKey := d.data.type ++ "-" ++ d.data.fromUserId
    let lastSignalTime := (mget st1.recentSignalKeys signalKey).getD 0
    if now - lastSignalTime < 3000 then (st1, false)
    else ({ st1 with recentSignalKeys := mset st1.recentSignalKeys signalKey now }, true)

/-! ## Screen-share lifecycle controller
(EnhancedScreenShare, src/src/pages/ClassRoom.tsx lines 2141-2290) -/

/-- A display-capture `MediaStreamTrack`: kind, enabled flag, stopped flag,
and the event listeners currently attached to it, as `(eventType,
listenerId)` pairs. -/
structure STrack where
  kind : String
  enabled : Bool
  stopped : Bool
  listeners : List (String × Nat)
deriving DecidableEq

/-- Events dispatched on `window` by `EnhancedScreenShare`. -/
inductive ScreenEvent
  | screenshareEnded
  | screenshareMuteChange (kind : String) (muted : Bool)
deriving DecidableEq

/-- State of the `EnhancedScreenShare` class: the capture stream (a list of
track objects, or absent), the sharing flag, the last observed mute state
per kind, the debounce timer, and the registered `(eventType, listenerId)`
pairs kept in `eventListeners` for later removal. -/
structure EnhancedScreenShare where
  localStream : Option (List STrack)
  isSharing : Bool
  lastMuteStateVideo : Option Bool
  lastMuteStateAudio : Option Bool
  muteDebounceTimer : Option Nat
  eventListeners : List (String × Nat)
deriving DecidableEq

/-- The listener-removal loop at the top of `stopScreenShare`
(ClassRoom.tsx lines 2254-2260): for each registered `(type, listener)`
pair, remove it from every track of the current stream. -/
def removeRegisteredListeners (eventListeners : List (String × Nat))
    (stream : Option (List STrack)) : Option (List STrack) :=
  eventListeners.foldl
    (fun s l =>
      match s with
      | none => none
      | some ts => some (ts.map fun t => { t with listeners := t.listeners.filter (fun l2 => l2 ≠ l) }))
    stream

/-- `track.stop()` applied to every track of the stream (ClassRoom.tsx
lines 2268-2273). -/
def stopTracks (stream : Option (List STrack)) : Option (List STrack) :=
  match stream with
  | none => none
  | some ts => some (ts.map fun t => { t with stopped := true })

/-- `stopScreenShare()` (ClassRoom.tsx lines 2250-2282): remove all
registered event listeners first, clear the debounce timer, stop the tracks
and drop the stream, reset `isSharing` and `lastMuteState`, and finally
dispatch `screenshare-ended` only under the guard `if (this.isSharing)` —
which is evaluated after `isSharing` was set to false. Returns the new
state, the list of dispatched events, and the released stream's final track
objects (the heap objects surviving the dropped reference). -/
def stopScreenShare (s : EnhancedScreenShare) :
    EnhancedScreenShare × List ScreenEvent × Option (List STrack) :=
  let stream1 := removeRegisteredListeners s.eventListeners s.localStream
  let s1 : EnhancedScreenShare := { s with localStream := stream1, eventListeners := [] }
  let s2 : EnhancedScreenShare := { s1 with muteDebounceTimer := none }
  let released := stopTracks s2.localStream
  let s3 : EnhancedScreenShare := { s2 with localStream := none }
  let s4 : EnhancedScreenShare :=
    { s3 with isSharing := false, lastMuteStateVideo := none, lastMuteStateAudio := none }
  let events := if s4.isSharing then [ScreenEvent.screenshareEnded] else []
  (s4, events, released)

/-! ## Concrete sample values used by witnesses and counterexamples -/

/-- A freshly constructed `WebRTCManager` (all fields empty). -/
def mgr0 : WebRTCManager :=
  { trackStore := [], pcStore := [], nextPC := 0, localStream := none,
    peerConnections := [], remoteStreams := [], isInitialized := false,
    connectionStates := [], pendingCandidates := [] }

/-- A sample ICE candidate. -/
def cand0 : RTCIceCandidateInit :=
  { candidate := "candidate:0 1 udp 2122260223 192.168.1.7 54400 typ host",
    sdpMid := some "0", sdpMLineIndex := some 0, usernameFragment := none }

/-- A second sample ICE candidate. -/
def cand1 : RTCIceCandidateInit :=
  { candidate := "candidate:1 1 udp 1686052607 203.0.113.5 61000 typ srflx",
    sdpMid := some "0", sdpMLineIndex := some 0, usernameFragment := none }

/-- A sample answer description. -/
def ans0 : RTCSessionDescriptionInit := { type := "answer", sdp := "answerSdpA" }

/-- A sample offer description. -/
def offer0 : RTCSessionDescriptionInit := { type := "offer", sdp := "offerSdpR" }

/-! ## Generic lemma for key-preserving maps over association lists -/

theorem mget_map_keyfix {κ α : Type} [DecidableEq κ] (f : κ × α → κ × α)
    (hf : ∀ p, (f p).1 = p.1) (l : List (κ × α)) (k : κ) :
    mget (l.map f) k = (mget l k).map (fun v => (f (k, v)).2) := by
  induction l with
  | nil => simp [mget]
  | cons p rest ih =>
    obtain ⟨k1, v1⟩ := p
    by_cases hk : k1 = k
    · subst hk
      simp [mget, hf (k1, v1)]
    · simp [mget, hf (k1, v1), hk, ih]

/-! ## Claim theorems -/

/-- C7: requesting capture with neither audio nor video fails with the
constraint-violation error before any device access is attempted — the
outcome is the same for every possible device layer `getUserMedia`, which is
never consulted — and the whole manager state, in particular its local
stream and its initialized flag, is returned unchanged. -/
theorem initLocalStream_rejects_no_media (m : WebRTCManager)
    (getUserMedia : MediaStreamConstraints → Except String (List (Nat × MediaStreamTrack))) :
    WebRTCManager.initLocalStream m false false getUserMedia =
      (m, Except.error "At least one of audio or video must be requested") := by
  rfl

/-- C10: `stopScreenShare` never dispatches any event — in particular the
`screenshare-ended` dispatch is unreachable, because `isSharing` is set to
false before the guard that decides whether to dispatch is evaluated. -/
theorem stopScreenShare_no_events (s : EnhancedScreenShare) :
    (stopScreenShare s).2.1 = [] := by
  rfl

/-- C2: on a registered connection, `handleAnswer` is a no-op returning no
error whenever the connection's signaling state is not have-local-offer;
consequently, on a connection in have-local-offer a first call succeeds
(reaching state stable) and an immediate second call with the same answer
returns the first call's state unchanged — the state is mutated at most
once. -/
theorem handleAnswer_wrong_state_noop (m : WebRTCManager) (id : String)
    (ans : RTCSessionDescriptionInit) (h : Nat) (pc : RTCPeerConnection)
    (hconn : mget m.peerConnections id = some h)
    (hpc : mget m.pcStore h = some pc) :
    (pc.signalingState ≠ SignalingState.haveLocalOffer →
      WebRTCManager.handleAnswer m id ans = Except.ok m) ∧
    (pc.signalingState = SignalingState.haveLocalOffer →
      ∃ m1, WebRTCManager.handleAnswer m id ans = Except.ok m1 ∧
        (∃ pc1, mget m1.pcStore h = some pc1 ∧
          pc1.signalingState = SignalingState.stable) ∧
        WebRTCManager.handleAnswer m1 id ans = Except.ok m1) := by
  constructor
  · intro hne
    simp [WebRTCManager.handleAnswer, hconn, hpc, hne]
  · intro hst
    refine ⟨{ m with
        pcStore := mset m.pcStore h
          { pc with remoteDescription := some ans,
                    signalingState := SignalingState.stable,
                    appliedCandidates :=
                      pc.appliedCandidates ++ (mget m.pendingCandidates id).getD [] },
        pendingCandidates := mset m.pendingCandidates id [] }, ?_, ?_, ?_⟩
    · simp [WebRTCManager.handleAnswer, hconn, hpc, hst]
    · exact ⟨_, mget_mset_self _ _ _, rfl⟩
    · simp [WebRTCManager.handleAnswer, hconn, mget_mset_self]

/-- After `closeConnection`, the three auxiliary maps hold the erased lists
and no connection is registered for the id. -/
theorem closeConnection_fields (m : WebRTCManager) (id : String) :
    (m.closeConnection id).remoteStreams = merase m.remoteStreams id ∧
    (m.closeConnection id).connectionStates = merase m.connectionStates id ∧
    (m.closeConnection id).pendingCandidates = merase m.pendingCandidates id ∧
    mget (m.closeConnection id).peerConnections id = none := by
  unfold WebRTCManager.closeConnection
  cases hc : mget m.peerConnections id with
  | none => simp [hc]
  | some h =>
    cases hp : mget m.pcStore h <;> simp [hp, mget_merase_self]

/-- C5 counterexample: after `closeConnection` has run for "s1", a
`handleAnswer` referencing "s1" throws the "No peer connection found" error
— refuting the claim that no subsequent call referencing the id throws. -/
theorem handleAnswer_after_close_throws :
    WebRTCManager.handleAnswer
      (WebRTCManager.closeConnection (WebRTCManager.createOffer mgr0 "s1" "offerSdpA").1 "s1")
      "s1" ans0 = Except.error "No peer connection found" := by
  rfl

/-- C5 (amended): `closeConnection` is idempotent and closing an id with no
recorded state is a no-op; after `close(remoteId)` the manager has no
connection for the id, and a subsequent `addIceCandidate` for the id returns
with the state completely unchanged (it neither throws nor resurrects
anything), while a subsequent `handleAnswer` does not resurrect the session
either but throws the "No peer connection found" error (which the caller in
ClassRoom.tsx catches) instead of returning silently. -/
theorem close_then_further_calls (m : WebRTCManager) (id : String)
    (c : RTCIceCandidateInit) (ans : RTCSessionDescriptionInit) :
    mget (m.closeConnection id).peerConnections id = none ∧
    (m.closeConnection id).closeConnection id = m.closeConnection id ∧
    WebRTCManager.addIceCandidate (m.closeConnection id) id c = m.closeConnection id ∧
    WebRTCManager.handleAnswer (m.closeConnection id) id ans =
      Except.error "No peer connection found" ∧
    (mget m.peerConnections id = none → mget m.remoteStreams id = none →
     mget m.connectionStates id = none → mget m.pendingCandidates id = none →
     m.closeConnection id = m) := by
  obtain ⟨hrs, hcs, hpd, hpcn⟩ := closeConnection_fields m id
  refine ⟨hpcn, ?_, ?_, ?_, ?_⟩
  · set mC := m.closeConnection id with hmC
    unfold WebRTCManager.closeConnection
    rw [hpcn]
    dsimp only
    rw [hrs, hcs, hpd, merase_idem, merase_idem, merase_idem, ← hrs, ← hcs, ← hpd]
  · simp [WebRTCManager.addIceCandidate, hpcn]
  · simp [WebRTCManager.handleAnswer, hpcn]
  · intro h1 h2 h3 h4
    unfold WebRTCManager.closeConnection
    rw [h1]
    dsimp only
    rw [merase_eq_self_of_mget_none _ _ h2, merase_eq_self_of_mget_none _ _ h3,
        merase_eq_self_of_mget_none _ _ h4]

/-- C5 witness: the amended properties at concrete inputs — closing the
fresh manager (no state for "s1") is a no-op, and after a real close the
further `handleAnswer` yields the caught error. -/
theorem close_then_further_calls_witness :
    WebRTCManager.closeConnection mgr0 "s1" = mgr0 ∧
    WebRTCManager.addIceCandidate
      (WebRTCManager.closeConnection (WebRTCManager.createOffer mgr0 "s1" "offerSdpA").1 "s1")
      "s1" cand0 =
      WebRTCManager.closeConnection (WebRTCManager.createOffer mgr0 "s1" "offerSdpA").1 "s1" := by
  constructor
  · exact (close_then_further_calls mgr0 "s1" cand0 ans0).2.2.2.2 rfl rfl rfl rfl
  · exact (close_then_further_calls
      (WebRTCManager.createOffer mgr0 "s1" "offerSdpA").1 "s1" cand0 ans0).2.2.1

/-- C6: when two inbound signaling messages carry the same message type and
the same sender, and the second is processed within 3000 ms of a first that
was dispatched, the second is dropped and not dispatched — even when its
transport-assigned document id differs. In particular two join-requests from
the same viewer within 1 second never both reach the handler, so the
presenter initiates at most one offer for them. -/
theorem signal_dedup_suppresses_duplicate (st : DedupState) (t1 t2 : Nat)
    (d1 d2 : SnapshotDoc)
    (hty : d1.data.type = d2.data.type)
    (hfrom : d1.data.fromUserId = d2.data.fromUserId)
    (hwin : t2 - t1 < 3000)
    (h1 : (processDoc t1 st d1).2 = true) :
    (processDoc t2 (processDoc t1 st d1).1 d2).2 = false := by
  by_cases hmem : d1.id ∈ st.processedSignalIds
  · rw [processDoc] at h1
    simp [hmem] at h1
  · by_cases hw1 : t1 -
        (mget st.recentSignalKeys (d1.data.type ++ "-" ++ d1.data.fromUserId)).getD 0 < 3000
    · rw [processDoc, if_neg hmem] at h1
      dsimp only at h1
      rw [if_pos hw1] at h1
      simp at h1
    · have hstep : processDoc t1 st d1 =
          ({ processedSignalIds := st.processedSignalIds ++ [d1.id],
             recentSignalKeys := mset st.recentSignalKeys
               (d1.data.type ++ "-" ++ d1.data.fromUserId) t1 }, true) := by
        rw [processDoc, if_neg hmem]
        dsimp only
        rw [if_neg hw1]
      rw [hstep]
      have hkey : d2.data.type ++ "-" ++ d2.data.fromUserId =
          d1.data.type ++ "-" ++ d1.data.fromUserId := by
        rw [hty, hfrom]
      by_cases hmem2 : d2.id ∈ st.processedSignalIds ++ [d1.id]
      · simp [processDoc, hmem2]
      · simp [processDoc, hmem2, hkey, mget_mset_self, hwin]

/-- An empty dedup state, as created when the signaling listener attaches. -/
def dedup0 : DedupState := { processedSignalIds := [], recentSignalKeys := [] }

/-- A first join-request document from viewer1. -/
def joinReq1 : SnapshotDoc :=
  { id := "docA", data := { type := "join-request", fromUserId := "viewer1" } }

/-- A transport duplicate of the join-request: same type and sender, fresh
document id. -/
def joinReq2 : SnapshotDoc :=
  { id := "docB", data := { type := "join-request", fromUserId := "viewer1" } }

/-- C6 witness: a dispatched join-request at t=100000 ms suppresses a second
join-request from the same viewer, under a different document id, arriving
1000 ms later. -/
theorem signal_dedup_suppresses_duplicate_witness :
    (processDoc 100000 dedup0 joinReq1).2 = true ∧
    (processDoc 101000 (processDoc 100000 dedup0 joinReq1).1 joinReq2).2 = false := by
  constructor
  · decide
  · exact signal_dedup_suppresses_duplicate dedup0 100000 101000 joinReq1 joinReq2
      rfl rfl (by decide) (by decide)

/-- The connection object created by `createOffer mgr0 "s1" "offerSdpA"`:
fresh connection with the offer installed as local description. -/
def pcA : RTCPeerConnection :=
  { signalingState := .haveLocalOffer,
    connectionState := .new,
    localDescription := some { type := "offer", sdp := "offerSdpA" },
    remoteDescription := none,
    addedTracks := [],
    appliedCandidates := [] }

/-- C3 counterexample: a candidate passed to `addIceCandidate` for an id
with no connection — hence certainly before any remote description was set —
is discarded rather than appended to the pending buffer: the state is
returned unchanged and the buffer holds no entry for the id. -/
theorem addIceCandidate_without_connection_discards :
    WebRTCManager.addIceCandidate mgr0 "s1" cand0 = mgr0 ∧
    mget (WebRTCManager.addIceCandidate mgr0 "s1" cand0).pendingCandidates "s1" = none := by
  constructor <;> rfl

/-- C3 (amended): for an id with a registered connection that has no remote
description yet (state have-local-offer), a candidate handed to
`addIceCandidate` is appended to the pending buffer in arrival order while
no candidate touches the connection; `handleAnswer` then applies the
buffered candidates to the connection exactly once, in receipt order, and
empties the buffer; afterwards a further candidate is applied immediately
and the buffer stays empty, so no drained candidate is ever re-applied.
(A candidate for an id with no connection is instead discarded — see the
counterexample.) -/
theorem pending_buffered_drained_in_order (m : WebRTCManager) (id : String)
    (c c2 : RTCIceCandidateInit) (ans : RTCSessionDescriptionInit)
    (h : Nat) (pc : RTCPeerConnection)
    (hconn : mget m.peerConnections id = some h)
    (hpc : mget m.pcStore h = some pc)
    (hrd : pc.remoteDescription = none)
    (hst : pc.signalingState = SignalingState.haveLocalOffer) :
    mget (WebRTCManager.addIceCandidate m id c).pendingCandidates id =
      some ((mget m.pendingCandidates id).getD [] ++ [c]) ∧
    (WebRTCManager.addIceCandidate m id c).pcStore = m.pcStore ∧
    ∃ m2, WebRTCManager.handleAnswer (WebRTCManager.addIceCandidate m id c) id ans =
        Except.ok m2 ∧
      (mget m2.pcStore h).map RTCPeerConnection.appliedCandidates =
        some (pc.appliedCandidates ++ ((mget m.pendingCandidates id).getD [] ++ [c])) ∧
      mget m2.pendingCandidates id = some [] ∧
      mget (WebRTCManager.addIceCandidate m2 id c2).pendingCandidates id = some [] ∧
      (mget (WebRTCManager.addIceCandidate m2 id c2).pcStore h).map
          RTCPeerConnection.appliedCandidates =
        some (pc.appliedCandidates ++ ((mget m.pendingCandidates id).getD [] ++ [c]) ++ [c2]) := by
  have hA : WebRTCManager.addIceCandidate m id c =
      { m with pendingCandidates :=
          (mset m.pendingCandidates id ((mget m.pendingCandidates id).getD [] ++ [c])) } := by
    simp [WebRTCManager.addIceCandidate, hconn, hpc, hrd]
  rw [hA]
  refine ⟨mget_mset_self _ _ _, rfl, ?_⟩
  refine ⟨{ m with
      pcStore :=
        (mset m.pcStore h
          { pc with remoteDescription := some ans,
                    signalingState := SignalingState.stable,
                    appliedCandidates :=
                      pc.appliedCandidates ++ ((mget m.pendingCandidates id).getD [] ++ [c]) }),
      pendingCandidates :=
        (mset (mset m.pendingCandidates id ((mget m.pendingCandidates id).getD [] ++ [c]))
          id []) }, ?_, ?_, ?_, ?_, ?_⟩
  · simp [WebRTCManager.handleAnswer, hconn, hpc, hst, mget_mset_self]
  · simp [mget_mset_self]
  · exact mget_mset_self _ _ _
  · simp [WebRTCManager.addIceCandidate, hconn, mget_mset_self]
  · simp [WebRTCManager.addIceCandidate, hconn, mget_mset_self]

/-- C3 witness: on the concrete state where an offer for "s1" is awaiting
its answer, the buffered candidate is exactly the one just received. -/
theorem pending_buffered_drained_in_order_witness :
    mget (WebRTCManager.addIceCandidate
        (WebRTCManager.createOffer mgr0 "s1" "offerSdpA").1 "s1" cand0).pendingCandidates "s1" =
      some [cand0] := by
  have hthm := pending_buffered_drained_in_order
    (WebRTCManager.createOffer mgr0 "s1" "offerSdpA").1 "s1" cand0 cand1 ans0 0 pcA
    rfl rfl rfl rfl
  rw [hthm.1]
  rfl

/-- C4 counterexample: a candidate queued for "s1" while an offer was
awaiting its answer is not drained by a subsequent `handleOffer` for "s1":
it sat in the buffer beforehand, yet afterwards the buffer is empty and the
new connection has had no candidate applied — the queued candidate was
discarded, not applied. -/
theorem handleOffer_drops_queued_candidate :
    mget (WebRTCManager.addIceCandidate
        (WebRTCManager.createOffer mgr0 "s1" "offerSdpA").1 "s1" cand0).pendingCandidates "s1" =
      some [cand0] ∧
    mget ((WebRTCManager.handleOffer
        (WebRTCManager.addIceCandidate
          (WebRTCManager.createOffer mgr0 "s1" "offerSdpA").1 "s1" cand0)
        "s1" offer0 "answerSdpB").1).pendingCandidates "s1" = some [] ∧
    (mget ((WebRTCManager.handleOffer
        (WebRTCManager.addIceCandidate
          (WebRTCManager.createOffer mgr0 "s1" "offerSdpA").1 "s1" cand0)
        "s1" offer0 "answerSdpB").1).pcStore 1).map RTCPeerConnection.appliedCandidates =
      some [] := by
  refine ⟨rfl, rfl, rfl⟩

/-- C4 (amended / corrected): `handleOffer` does not drain previously queued
candidates — recreating the connection slot discards them: when `handleOffer`
returns, the pending buffer for the id is empty and the freshly negotiated
connection has had no candidate applied. -/
theorem handleOffer_discards_pending (m : WebRTCManager) (id : String)
    (offer : RTCSessionDescriptionInit) (answerSdp : String) :
    ∃ h pc,
      mget ((WebRTCManager.handleOffer m id offer answerSdp).1).peerConnections id = some h ∧
      mget ((WebRTCManager.handleOffer m id offer answerSdp).1).pcStore h = some pc ∧
      pc.appliedCandidates = [] ∧
      mget ((WebRTCManager.handleOffer m id offer answerSdp).1).pendingCandidates id = some [] := by
  cases hcview : mget m.peerConnections id with
  | none =>
    simp only [WebRTCManager.handleOffer, WebRTCManager.createPeerConnection,
      WebRTCManager.closeConnection, hcview, Option.isSome_none, Bool.false_eq_true,
      if_false]
    exact ⟨m.nextPC, _, mget_mset_self _ _ _, mget_mset_self _ _ _, rfl, mget_mset_self _ _ _⟩
  | some h0 =>
    cases hpstore : mget m.pcStore h0 with
    | none =>
      simp only [WebRTCManager.handleOffer, WebRTCManager.createPeerConnection,
        WebRTCManager.closeConnection, hcview, hpstore, Option.isSome_some, if_true,
        mget_merase_self, Option.isSome_none, Bool.false_eq_true, if_false]
      exact ⟨m.nextPC, _, mget_mset_self _ _ _, mget_mset_self _ _ _, rfl, mget_mset_self _ _ _⟩
    | some pc0 =>
      simp only [WebRTCManager.handleOffer, WebRTCManager.createPeerConnection,
        WebRTCManager.closeConnection, hcview, hpstore, Option.isSome_some, if_true,
        mget_merase_self, Option.isSome_none, Bool.false_eq_true, if_false]
      exact ⟨m.nextPC, _, mget_mset_self _ _ _, mget_mset_self _ _ _, rfl, mget_mset_self _ _ _⟩

/-- C1: with a live connection already registered for the id (handle h0 —
allocated earlier, hence distinct from the current allocator mark — holding
the object pc0), `createOffer` first closes and removes that connection and
only then installs a single fresh one: afterwards the old object is closed
on the heap, the map holds exactly one entry for the id, and that entry is
the new connection, open in state have-local-offer; `handleOffer` likewise
leaves exactly one open connection, in state stable. -/
theorem createOffer_single_open_connection (m : WebRTCManager) (id : String)
    (offerSdp answerSdp : String) (offer : RTCSessionDescriptionInit)
    (h0 : Nat) (pc0 : RTCPeerConnection)
    (hconn : mget m.peerConnections id = some h0)
    (hpc : mget m.pcStore h0 = some pc0)
    (hfresh : h0 ≠ m.nextPC) :
    (countKey ((WebRTCManager.createOffer m id offerSdp).1).peerConnections id = 1 ∧
     mget ((WebRTCManager.createOffer m id offerSdp).1).peerConnections id = some m.nextPC ∧
     (mget ((WebRTCManager.createOffer m id offerSdp).1).pcStore m.nextPC).map
        RTCPeerConnection.signalingState = some SignalingState.haveLocalOffer ∧
     mget ((WebRTCManager.createOffer m id offerSdp).1).pcStore h0 = some (pcClose pc0) ∧
     (pcClose pc0).signalingState = SignalingState.closed) ∧
    (countKey ((WebRTCManager.handleOffer m id offer answerSdp).1).peerConnections id = 1 ∧
     mget ((WebRTCManager.handleOffer m id offer answerSdp).1).peerConnections id =
       some m.nextPC ∧
     (mget ((WebRTCManager.handleOffer m id offer answerSdp).1).pcStore m.nextPC).map
        RTCPeerConnection.signalingState = some SignalingState.stable ∧
     mget ((WebRTCManager.handleOffer m id offer answerSdp).1).pcStore h0 =
       some (pcClose pc0)) := by
  have hnum : countKey (mset (merase m.peerConnections id) id m.nextPC) id = 1 :=
    countKey_mset_of_none _ _ _ (mget_merase_self _ _)
  constructor
  · simp only [WebRTCManager.createOffer, WebRTCManager.createPeerConnection,
      WebRTCManager.closeConnection, hconn, hpc, Option.isSome_some, if_true,
      mget_merase_self, Option.isSome_none, Bool.false_eq_true, if_false]
    refine ⟨hnum, mget_mset_self _ _ _, ?_, ?_, rfl⟩
    · rw [mget_mset_self]
      rfl
    · rw [mget_mset_ne _ _ _ _ hfresh, mget_mset_ne _ _ _ _ hfresh, mget_mset_self]
  · simp only [WebRTCManager.handleOffer, WebRTCManager.createPeerConnection,
      WebRTCManager.closeConnection, hconn, hpc, Option.isSome_some, if_true,
      mget_merase_self, Option.isSome_none, Bool.false_eq_true, if_false]
    refine ⟨hnum, mget_mset_self _ _ _, ?_, ?_⟩
    · rw [mget_mset_self]
      rfl
    · rw [mget_mset_ne _ _ _ _ hfresh, mget_mset_ne _ _ _ _ hfresh, mget_mset_self]

/-- C1 witness: two `createOffer` calls in a row for "s1" on the fresh
manager leave exactly one entry in the connection map, and the first call's
connection object (handle 0) ends up closed on the heap. -/
theorem createOffer_single_open_connection_witness :
    countKey ((WebRTCManager.createOffer
        (WebRTCManager.createOffer mgr0 "s1" "offerSdpA").1 "s1"
        "offerSdpB").1).peerConnections "s1" = 1 ∧
    mget ((WebRTCManager.createOffer
        (WebRTCManager.createOffer mgr0 "s1" "offerSdpA").1 "s1"
        "offerSdpB").1).pcStore 0 = some (pcClose pcA) := by
  have hthm := createOffer_single_open_connection
    (WebRTCManager.createOffer mgr0 "s1" "offerSdpA").1 "s1" "offerSdpB" "answerSdpB" offer0
    0 pcA rfl rfl (by decide)
  exact ⟨hthm.1.1, hthm.1.2.2.2.1⟩

/-- C2 witness: on the concrete connection awaiting its answer, a first
`handleAnswer` succeeds reaching state stable, and an immediate duplicate
call returns the same state unchanged. -/
theorem handleAnswer_wrong_state_noop_witness :
    ∃ m1, WebRTCManager.handleAnswer
        (WebRTCManager.createOffer mgr0 "s1" "offerSdpA").1 "s1" ans0 = Except.ok m1 ∧
      (∃ pc1, mget m1.pcStore 0 = some pc1 ∧
        pc1.signalingState = SignalingState.stable) ∧
      WebRTCManager.handleAnswer m1 "s1" ans0 = Except.ok m1 :=
  (handleAnswer_wrong_state_noop
    (WebRTCManager.createOffer mgr0 "s1" "offerSdpA").1 "s1" ans0 0 pcA rfl rfl).2 rfl

/-- The per-track transform effected by `updateLocalStreamTracks` on the
heap: tracks belonging to the local stream get their `enabled` flag set
according to their kind; every other track — and every other field — is
untouched. -/
def updatedTrack (hs : List Nat) (a v : Bool) (h : Nat) (t : MediaStreamTrack) :
    MediaStreamTrack :=
  if h ∈ hs ∧ t.kind = "audio" then { t with enabled := a }
  else if h ∈ hs ∧ t.kind = "video" then { t with enabled := v }
  else t

/-- C8: `updateLocalStreamTracks` flips only the `enabled` flag of the local
stream's tracks: the connection map, the heap of connection objects (hence
every connection's signaling and connection state), the remote streams, the
connection-state map, the pending candidates, the stream reference and the
initialized flag are all unchanged (no renegotiation); every track in the
heap is rewritten by `updatedTrack`, which only ever changes `enabled` —
and since every peer connection holds handles into this shared heap, the
toggle is visible to all peers at once. -/
theorem updateLocalStreamTracks_frame (m : WebRTCManager) (a v : Bool) :
    (WebRTCManager.updateLocalStreamTracks m a v).peerConnections = m.peerConnections ∧
    (WebRTCManager.updateLocalStreamTracks m a v).pcStore = m.pcStore ∧
    (WebRTCManager.updateLocalStreamTracks m a v).remoteStreams = m.remoteStreams ∧
    (WebRTCManager.updateLocalStreamTracks m a v).connectionStates = m.connectionStates ∧
    (WebRTCManager.updateLocalStreamTracks m a v).pendingCandidates = m.pendingCandidates ∧
    (WebRTCManager.updateLocalStreamTracks m a v).localStream = m.localStream ∧
    (WebRTCManager.updateLocalStreamTracks m a v).isInitialized = m.isInitialized ∧
    (∀ th : Nat, mget (WebRTCManager.updateLocalStreamTracks m a v).trackStore th =
      (mget m.trackStore th).map (updatedTrack (m.localStream.getD []) a v th)) ∧
    (∀ th : Nat, ∀ t : MediaStreamTrack,
      (updatedTrack (m.localStream.getD []) a v th t).kind = t.kind ∧
      (updatedTrack (m.localStream.getD []) a v th t).stopped = t.stopped) := by
  have hkindsplit : ∀ th t, (updatedTrack (m.localStream.getD []) a v th t).kind = t.kind ∧
      (updatedTrack (m.localStream.getD []) a v th t).stopped = t.stopped := by
    intro th t
    unfold updatedTrack
    split
    · exact ⟨rfl, rfl⟩
    · split
      · exact ⟨rfl, rfl⟩
      · exact ⟨rfl, rfl⟩
  cases hls : m.localStream with
  | none =>
    have hid : WebRTCManager.updateLocalStreamTracks m a v = m := by
      unfold WebRTCManager.updateLocalStreamTracks
      rw [hls]
    rw [hid, hls]
    refine ⟨rfl, rfl, rfl, rfl, rfl, rfl, rfl, ?_, ?_⟩
    · intro th
      cases hmg : mget m.trackStore th <;> simp [updatedTrack]
    · rw [hls] at hkindsplit
      exact hkindsplit
  | some hs =>
    have hkindsome := hkindsplit
    rw [hls] at hkindsome
    have hf1 : ∀ p : Nat × MediaStreamTrack,
        ((fun p : Nat × MediaStreamTrack =>
          if p.1 ∈ hs ∧ p.2.kind = "audio" then (p.1, { p.2 with enabled := a }) else p) p).1 =
        p.1 := by
      intro p
      dsimp only
      split <;> rfl
    have hf2 : ∀ p : Nat × MediaStreamTrack,
        ((fun p : Nat × MediaStreamTrack =>
          if p.1 ∈ hs ∧ p.2.kind = "video" then (p.1, { p.2 with enabled := v }) else p) p).1 =
        p.1 := by
      intro p
      dsimp only
      split <;> rfl
    have hup : WebRTCManager.updateLocalStreamTracks m a v =
        { m with trackStore :=
            ((m.trackStore.map fun p =>
                if p.1 ∈ hs ∧ p.2.kind = "audio" then (p.1, { p.2 with enabled := a })
                else p).map
              fun p =>
                if p.1 ∈ hs ∧ p.2.kind = "video" then (p.1, { p.2 with enabled := v })
                else p) } := by
      unfold WebRTCManager.updateLocalStreamTracks
      rw [hls]
    rw [hup, hls]
    refine ⟨rfl, rfl, rfl, rfl, rfl, rfl, rfl, ?_, hkindsome⟩
    intro th
    rw [show ({ m with trackStore :=
        ((m.trackStore.map fun p =>
            if p.1 ∈ hs ∧ p.2.kind = "audio" then (p.1, { p.2 with enabled := a })
            else p).map
          fun p =>
            if p.1 ∈ hs ∧ p.2.kind = "video" then (p.1, { p.2 with enabled := v })
            else p) } : WebRTCManager).trackStore =
        ((m.trackStore.map fun p =>
            if p.1 ∈ hs ∧ p.2.kind = "audio" then (p.1, { p.2 with enabled := a })
            else p).map
          fun p =>
            if p.1 ∈ hs ∧ p.2.kind = "video" then (p.1, { p.2 with enabled := v })
            else p) from rfl]
    rw [mget_map_keyfix _ hf2, mget_map_keyfix _ hf1]
    cases hmg : mget m.trackStore th with
    | none => rfl
    | some t =>
      have hav : ("audio" : String) ≠ "video" := by decide
      by_cases h1 : th ∈ hs
      · by_cases h2 : t.kind = "audio"
        · simp [updatedTrack, h1, h2, hav]
        · by_cases h3 : t.kind = "video"
          · simp [updatedTrack, h1, h2, h3]
          · simp [updatedTrack, h1, h2, h3]
      · simp [updatedTrack, h1]

theorem removeRegisteredListeners_none (ls : List (String × Nat)) :
    removeRegisteredListeners ls none = none := by
  induction ls with
  | nil => rfl
  | cons l rest ih =>
    simp only [removeRegisteredListeners, List.foldl_cons] at ih ⊢
    exact ih

theorem removeRegisteredListeners_preserves (ls : List (String × Nat)) (l : String × Nat) :
    ∀ stream : Option (List STrack),
      (∀ ts0, stream = some ts0 → ∀ t ∈ ts0, l ∉ t.listeners) →
      ∀ ts, removeRegisteredListeners ls stream = some ts → ∀ t ∈ ts, l ∉ t.listeners := by
  induction ls with
  | nil =>
    intro stream h ts hts
    exact h ts hts
  | cons l0 rest ih =>
    intro stream h ts hts
    cases stream with
    | none =>
      rw [show removeRegisteredListeners (l0 :: rest) none =
            removeRegisteredListeners rest none from rfl,
          removeRegisteredListeners_none] at hts
      cases hts
    | some ts0 =>
      rw [show removeRegisteredListeners (l0 :: rest) (some ts0) =
            removeRegisteredListeners rest
              (some (ts0.map fun t =>
                { t with listeners := t.listeners.filter (fun l2 => l2 ≠ l0) })) from rfl] at hts
      refine ih _ ?_ ts hts
      intro ts1 h1 t ht
      injection h1 with h1
      subst h1
      rcases List.mem_map.mp ht with ⟨t', ht', rfl⟩
      intro hmem
      exact h ts0 rfl t' ht' (List.mem_filter.mp hmem).1

theorem removeRegisteredListeners_removes (ls : List (String × Nat))
    (stream : Option (List STrack)) :
    ∀ ts, removeRegisteredListeners ls stream = some ts →
      ∀ t ∈ ts, ∀ l ∈ ls, l ∉ t.listeners := by
  induction ls generalizing stream with
  | nil =>
    intro ts hts t ht l hl
    cases hl
  | cons l0 rest ih =>
    intro ts hts t ht l hl
    cases stream with
    | none =>
      rw [show removeRegisteredListeners (l0 :: rest) none =
            removeRegisteredListeners rest none from rfl,
          removeRegisteredListeners_none] at hts
      cases hts
    | some ts0 =>
      rw [show removeRegisteredListeners (l0 :: rest) (some ts0) =
            removeRegisteredListeners rest
              (some (ts0.map fun t =>
                { t with listeners := t.listeners.filter (fun l2 => l2 ≠ l0) })) from rfl] at hts
      rcases List.mem_cons.mp hl with rfl | hrest
      · refine removeRegisteredListeners_preserves rest l _ ?_ ts hts t ht
        intro ts1 h1 t1 ht1
        injection h1 with h1
        subst h1
        rcases List.mem_map.mp ht1 with ⟨t', ht', rfl⟩
        intro hmem
        have hdec := (List.mem_filter.mp hmem).2
        simp at hdec
      · exact ih _ ts hts t ht l hrest

/-- C9: calling `stopScreenShare` when no share was ever started (no stream,
no registered listeners, no debounce timer, not sharing, empty mute state)
is a no-op that emits no events and releases nothing; and whenever it runs,
the tracks that get stopped are exactly the tracks of the listener-stripped
stream — every registered listener has already been removed from them before
`stop()` — so stopping the tracks cannot re-trigger the ended handler. -/
theorem stopScreenShare_safe (s : EnhancedScreenShare) :
    (s.localStream = none → s.eventListeners = [] → s.muteDebounceTimer = none →
      s.isSharing = false → s.lastMuteStateVideo = none → s.lastMuteStateAudio = none →
      stopScreenShare s = (s, [], none)) ∧
    (stopScreenShare s).2.2 =
      stopTracks (removeRegisteredListeners s.eventListeners s.localStream) ∧
    (∀ ts, removeRegisteredListeners s.eventListeners s.localStream = some ts →
      ∀ t ∈ ts, ∀ l ∈ s.eventListeners, l ∉ t.listeners) := by
  refine ⟨?_, rfl, removeRegisteredListeners_removes _ _⟩
  intro h1 h2 h3 h4 h5 h6
  obtain ⟨ls, sh, mv, ma, td, el⟩ := s
  dsimp only at h1 h2 h3 h4 h5 h6
  subst h1
  subst h2
  subst h3
  subst h4
  subst h5
  subst h6
  rfl

/-- A never-started screen-share controller. -/
def shr0 : EnhancedScreenShare :=
  { localStream := none, isSharing := false, lastMuteStateVideo := none,
    lastMuteStateAudio := none, muteDebounceTimer := none, eventListeners := [] }

/-- A display-capture track carrying the three registered listeners. -/
def strack0 : STrack :=
  { kind := "video", enabled := true, stopped := false,
    listeners := [("ended", 0), ("mute", 1), ("unmute", 2)] }

/-- An active screen-share controller with one video track and the three
registered listeners. -/
def shr1 : EnhancedScreenShare :=
  { localStream := some [strack0], isSharing := true, lastMuteStateVideo := some false,
    lastMuteStateAudio := none, muteDebounceTimer := none,
    eventListeners := [("ended", 0), ("mute", 1), ("unmute", 2)] }

/-- C9 witness: stopping the never-started controller is a no-op with no
events, and on the active controller the listener-stripping pass leaves a
track carrying none of the registered listeners. -/
theorem stopScreenShare_safe_witness :
    stopScreenShare shr0 = (shr0, [], none) ∧
    (∀ t ∈ [({ kind := "video", enabled := true, stopped := false,
               listeners := [] } : STrack)],
      ∀ l ∈ shr1.eventListeners, l ∉ t.listeners) := by
  constructor
  · exact (stopScreenShare_safe shr0).1 rfl rfl rfl rfl rfl rfl
  · exact (stopScreenShare_safe shr1).2.2 _ (by decide)
